import Mathlib

/-!
Verification of the etymonline_downloader pipeline: a shallow embedding of
the string-processing, pagination-count, cache-path, fetch-scheduling and
dedup-store logic of `download_pages.py` and `words_process.py`, with the
claims about them settled as theorems.

Strings are modelled over their character lists; the Python string
primitives used by the code (`strip`, `lower`, `isnumeric`, `split`,
`isalnum`, `re.sub` of the three concrete patterns appearing in the code)
are embedded for the ASCII fragment the corpus uses.
-/

namespace Etym

/-! ## Python string primitives (ASCII fragment) -/

/-- Python whitespace (`str.isspace`, regex `\s`) restricted to ASCII:
space, tab, newline, carriage return, vertical tab, form feed. -/
def isPySpace (c : Char) : Bool :=
  c == ' ' || c == '\t' || c == '\n' || c == '\r' || c == '\x0b' || c == '\x0c'

/-- Python `str.strip()` on a character list: drop whitespace from both ends. -/
def pyStripList (l : List Char) : List Char :=
  ((l.dropWhile isPySpace).reverse.dropWhile isPySpace).reverse

/-- Python `str.strip()`. -/
def pyStrip (s : String) : String :=
  String.mk (pyStripList s.toList)

/-- Python `str.lower()` (ASCII). -/
def pyLower (s : String) : String :=
  String.mk (s.toList.map Char.toLower)

/-- Python `str.isnumeric()` (ASCII): nonempty and all decimal digits. -/
def pyIsNumeric (s : String) : Bool :=
  !s.isEmpty && s.toList.all Char.isDigit

/-- Python `int(s)` on a string of decimal digits. -/
def strToNat (s : String) : Nat :=
  s.toList.foldl (fun a c => a * 10 + (c.toNat - 48)) 0

/-- Python `str.split(sep)` for a one-character separator, on character
lists: the list of maximal groups between occurrences of `sep`. -/
def pySplitChar (sep : Char) : List Char → List (List Char)
  | [] => [[]]
  | c :: rest =>
    let groups := pySplitChar sep rest
    if c = sep then [] :: groups
    else (c :: groups.headD []) :: groups.tail

/-! ## words_process.py -/

/-- `WordEntry` of `words_process.py`: `(name, content, pos)` with `pos`
nullable (`None` modelled as `none`). -/
structure WordEntry where
  name : String
  content : String
  pos : Option String
deriving DecidableEq

/-- `format_pos.strip_nonalnum`: keep only alphanumeric characters
(Python `str.isalnum`, ASCII). -/
def strip_nonalnum (t : String) : String :=
  String.mk (t.toList.filter Char.isAlphanum)

/-- `format_pos` of `words_process.py`: on a token containing a comma,
split at commas, strip non-alphanumerics from each element and rejoin
with a comma-space; otherwise strip non-alphanumerics from the token. -/
def format_pos : Option String → Option String
  | none => none
  | some token =>
    if ',' ∈ token.toList then
      some (String.intercalate (", ")
        ((pySplitChar ',' token.toList).map (fun e => strip_nonalnum (String.mk e))))
    else some (strip_nonalnum token)

/-- The name/part-of-speech split of `iter_page_words` (lines 54-60 of
`words_process.py`): if the raw name contains a `(`, split on `(`, keep
part 0 as the name and normalize part 1 with `format_pos`. When `(` is
present the split has at least two parts, so the `getD` defaults are
unreachable. -/
def split_name_pos (name : String) : String × Option String :=
  if '(' ∈ name.toList then
    let entry_parts := pySplitChar '(' name.toList
    (String.mk (entry_parts.getD 0 []), format_pos (some (String.mk (entry_parts.getD 1 []))))
  else (name, none)

/-- `re.sub(r"\\x\S*", "", -)`: scanning left to right, a literal
backslash followed by `x` starts a match that greedily consumes the
following run of non-whitespace characters; the flag records whether we
are inside such a run. -/
def removeEscAux : Bool → List Char → List Char
  | _, [] => []
  | true, c :: rest =>
    if isPySpace c then c :: removeEscAux false rest else removeEscAux true rest
  | false, '\\' :: 'x' :: rest => removeEscAux true rest
  | false, c :: rest => c :: removeEscAux false rest

/-- `re.sub(r"\s+", " ", -)`: each maximal whitespace run becomes one
space; the flag records whether the previous character was whitespace. -/
def collapseSpacesAux : Bool → List Char → List Char
  | _, [] => []
  | prev, c :: rest =>
    if isPySpace c then
      if prev then collapseSpacesAux true rest else ' ' :: collapseSpacesAux true rest
    else c :: collapseSpacesAux false rest

/-- `re.sub(r"\n+", "\n", -)`: each maximal newline run becomes one
newline. -/
def collapseNewlinesAux : Bool → List Char → List Char
  | _, [] => []
  | prev, c :: rest =>
    if c = '\n' then
      if prev then collapseNewlinesAux true rest else '\n' :: collapseNewlinesAux true rest
    else c :: collapseNewlinesAux false rest

/-- `clean_html_content` of `words_process.py`: strip, remove `\x`
escape artifacts, collapse whitespace runs to a space, collapse newline
runs to a newline — in that order. -/
def clean_html_content (content : String) : String :=
  String.mk (collapseNewlinesAux false
    (collapseSpacesAux false (removeEscAux false (pyStripList content.toList))))

/-! ## words_process.py — DbWriter (SQLite dedup store)

The `words` table is `CREATE TABLE words (name TEXT, content TEXT, pos
TEXT, UNIQUE (name, content, pos))`, modelled as the list of its rows in
insertion order. SQLite semantics: for UNIQUE constraints NULL values
are distinct from every value, including other NULLs, so an inserted row
conflicts with an existing one only when all three columns are equal
with `pos` non-NULL on both sides. -/

/-- Whether inserting `w` violates `UNIQUE (name, content, pos)` against
existing row `r`, under SQLite's NULL-distinct comparison. -/
def uniqueConflict (r w : WordEntry) : Bool :=
  r.name == w.name && r.content == w.content &&
    (match r.pos, w.pos with
     | some a, some b => a == b
     | _, _ => false)

/-- `DbWriter.write_single_word` with `ignore_duplicate = True`: attempt
the insert; an IntegrityError (uniqueness violation) is suppressed and
the table is unchanged. -/
def write_single_word (table : List WordEntry) (w : WordEntry) : List WordEntry :=
  if table.any (fun r => uniqueConflict r w) then table else table ++ [w]

/-- `DbWriter.write_words`: insert each entry of a batch in turn. -/
def write_words (table : List WordEntry) (words : List WordEntry) : List WordEntry :=
  words.foldl write_single_word table

/-- A sequence of `write_words` batches through one store, as
`scrape_words` performs one batch per parsed page. -/
def write_batches (table : List WordEntry) (batches : List (List WordEntry)) : List WordEntry :=
  batches.foldl write_words table

/-- The result-consumption loop of `scrape_words` (lines 159-165 of
`words_process.py`): for each completed future in completion order,
`db.write_words(result.result())`. `result.result()` re-raises a failed
task's exception; nothing catches it, so the loop stops there — rows
written so far are committed by `DbWriter.__exit__`, the remaining
outcomes are never consumed. Returns the final table and the first
error, if any. -/
def scrape_words_loop :
    List WordEntry → List (Except String (List WordEntry)) → List WordEntry × Option String
  | table, [] => (table, none)
  | table, Except.error e :: _ => (table, some e)
  | table, Except.ok words :: rest => scrape_words_loop (write_words table words) rest

/-! ## download_pages.py — pagination count -/

/-- How `get_letter_pages_count` can fail: `selected[-2]` raises
IndexError when the pagination list has fewer than two items, and a
non-numeric item text raises `TypeError("Could not get page count")`. -/
inductive PagesCountError where
  | indexError : PagesCountError
  | typeError : String → PagesCountError
deriving DecidableEq

/-- `get_letter_pages_count` (identical in `download_pages.py` and
`etymonline_downloader.py`), over the list of the pagination control
items' texts: take `selected[-2]` (in bounds iff the list has at least
two items), require it numeric, return its integer value. Under the
length guard the `getD` default is unreachable. -/
def get_letter_pages_count (selected : List String) : Except PagesCountError Nat :=
  if 2 ≤ selected.length then
    let final_page_title := selected.getD (selected.length - 2) ("")
    if pyIsNumeric final_page_title then Except.ok (strToNat final_page_title)
    else Except.error (PagesCountError.typeError ("Could not get page count"))
  else Except.error PagesCountError.indexError

/-- `count_all_pages` / the dict comprehension of `full_download`:
resolve every partition's page count in order; an exception raised for
one partition propagates out of the comprehension, so no dictionary is
produced at all. -/
def count_all_pages :
    List (String × List String) → Except PagesCountError (List (String × Nat))
  | [] => Except.ok []
  | (k, items) :: rest =>
    match get_letter_pages_count items with
    | Except.error e => Except.error e
    | Except.ok n =>
      match count_all_pages rest with
      | Except.error e => Except.error e
      | Except.ok r => Except.ok ((k, n) :: r)

/-! ## download_pages.py — cache paths and filesystem -/

/-- Python `f"{n:03d}"`: decimal digits, left-padded with zeros to at
least three characters. -/
def pad3 (n : Nat) : String :=
  if n < 10 then ("00") ++ toString n
  else if n < 100 then ("0") ++ toString n
  else toString n

/-- The page file name both `make_filepath` and `save_page` build:
`f"{page_number:03d}_{letter.lower().strip()}.html"`. -/
def page_filename (letter : String) (page_number : Nat) : String :=
  pad3 page_number ++ ("_") ++ pyStrip (pyLower letter) ++ (".html")

/-- `make_filepath`: `SAVE_DIR.joinpath(letter, filename)` — the
directory component is the raw `letter`, not lower-cased. Paths are
modelled as component lists relative to `SAVE_DIR`. -/
def make_filepath (letter : String) (page_number : Nat) : List String :=
  [letter, page_filename letter page_number]

/-- The path `save_page` writes to:
`SAVE_DIR.joinpath(letter.lower())` joined with the file name — the
directory component is the lower-cased `letter`. -/
def save_page_target (letter : String) (page_number : Nat) : List String :=
  [pyLower letter, page_filename letter page_number]

/-- Durable on-disk storage: an association of paths to file contents.
It survives process restarts; only in-memory memo caches do not. -/
abbrev Fs := List (List String × String)

/-- Writing a file (`open(path, "w")` truncates/creates). -/
def fsWrite (fs : Fs) (p : List String) (c : String) : Fs :=
  (p, c) :: fs.filter (fun e => decide (e.1 ≠ p))

/-- `Path.exists()`. -/
def fsHas (fs : Fs) (p : List String) : Bool :=
  fs.any (fun e => decide (e.1 = p))

/-- Reading a file's content, if present. -/
def fsRead (fs : Fs) (p : List String) : Option String :=
  (fs.find? (fun e => decide (e.1 = p))).map Prod.snd

/-! ## download_pages.py — fetch scheduling

`get_page` and `save_page` carry `functools.cache` decorators: in-memory
memoization keyed on the arguments, starting empty in every process. A
fresh pipeline run therefore starts with empty memo caches, whatever the
on-disk cache holds. `fetches` counts `requests.get` calls. -/

structure FetchState where
  disk : Fs
  memo_get_page : List (String × Nat)
  memo_save_page : List (String × Nat)
  fetches : Nat
deriving DecidableEq

/-- `get_page(letter, page_number)`: memoized network fetch. The network
is a pure function `net` of the arguments, so the memoized value equals
the fetched one. -/
def get_page (net : String → Nat → String) (letter : String) (page_number : Nat)
    (st : FetchState) : String × FetchState :=
  if (letter, page_number) ∈ st.memo_get_page then (net letter page_number, st)
  else
    (net letter page_number,
      ⟨st.disk, (letter, page_number) :: st.memo_get_page, st.memo_save_page, st.fetches + 1⟩)

/-- `save_page(letter, page_number)`: unless memoized in this process,
fetch the page via `get_page` and write it to the cache file. There is
no check of the on-disk cache before fetching. -/
def save_page (net : String → Nat → String) (letter : String) (page_number : Nat)
    (st : FetchState) : FetchState :=
  if (letter, page_number) ∈ st.memo_save_page then st
  else
    let r := get_page net letter page_number st
    ⟨fsWrite r.2.disk (save_page_target letter page_number) r.1,
      r.2.memo_get_page, (letter, page_number) :: r.2.memo_save_page, r.2.fetches⟩

/-- `download_index(letter)`: if the cache file for page 1 exists (at
`make_filepath(letter, 1)`), return at once with no network traffic;
otherwise fetch `base_url + letter` (note: the full URL is passed as
`get_page`'s `letter` argument, so it is memoized under that key) and
then `save_page(letter)`. -/
def download_index (net : String → Nat → String) (letter : String) (st : FetchState) :
    FetchState :=
  if fsHas st.disk (make_filepath letter 1) = true then st
  else
    save_page net letter 1
      (get_page net (("https://www.etymonline.com/search?q=") ++ letter) 1 st).2

/-- The task set `save_all_pages` submits, executed over one run's
state: one `save_page` per `(letter, page_number)`. -/
def run_save_pages (net : String → Nat → String) (tasks : List (String × Nat))
    (st : FetchState) : FetchState :=
  tasks.foldl (fun s t => save_page net t.1 t.2 s) st

/-! ## download_pages.py — completion consumption of save_all_pages -/

/-- `DownloadUpdate` of `download_pages.py`: the letter and page number
of a completed task and that letter's total page count. -/
structure DownloadUpdate where
  letter : String
  page_number : Nat
  pages_total : Nat
deriving DecidableEq

/-- The `as_completed` consumption loop of `save_all_pages` (lines
192-202): outcomes arrive in completion order, each keyed by its
`(letter, n)`; a captured exception is appended to `failed` and the loop
continues; a success yields `DownloadUpdate(letter, n,
page_counts[letter])`. Returns the collected failures and the yielded
updates, each in completion order. -/
def consume_downloads (page_counts : String → Nat) :
    List ((String × Nat) × Option String) → List String × List DownloadUpdate
  | [] => ([], [])
  | ((l, n), e?) :: rest =>
    let r := consume_downloads page_counts rest
    match e? with
    | some e => (e :: r.1, r.2)
    | none => (r.1, ⟨l, n, page_counts l⟩ :: r.2)

/-! ## Helper lemmas -/

theorem pySplitChar_not_mem (sep : Char) (l : List Char) (h : sep ∉ l) :
    pySplitChar sep l = [l] := by
  induction l with
  | nil => rfl
  | cons c rest ih =>
    rw [List.mem_cons, not_or] at h
    have hc : ¬ c = sep := fun hh => h.1 hh.symm
    simp [pySplitChar, hc, ih h.2]

theorem pySplitChar_append (sep : Char) (a b : List Char) (ha : sep ∉ a) :
    pySplitChar sep (a ++ sep :: b) = a :: pySplitChar sep b := by
  induction a with
  | nil => simp [pySplitChar]
  | cons c arest ih =>
    rw [List.mem_cons, not_or] at ha
    have hc : ¬ c = sep := fun hh => ha.1 hh.symm
    rw [List.cons_append]
    simp [pySplitChar, hc, ih ha.2]

theorem collapseSpacesAux_no_newline (l : List Char) :
    ∀ b : Bool, '\n' ∉ collapseSpacesAux b l := by
  induction l with
  | nil => intro b; simp [collapseSpacesAux]
  | cons c rest ih =>
    intro b
    by_cases hc : isPySpace c = true
    · cases b <;> simp [collapseSpacesAux, hc, ih]
    · have hne : ¬ ('\n' = c) := by
        intro hh; rw [← hh] at hc; exact hc (by decide)
      simp [collapseSpacesAux, hc, ih, hne]

theorem collapseNewlinesAux_id (l : List Char) (h : '\n' ∉ l) :
    ∀ b : Bool, collapseNewlinesAux b l = l := by
  induction l with
  | nil => intro b; rfl
  | cons c rest ih =>
    rw [List.mem_cons, not_or] at h
    intro b
    have hc : ¬ c = '\n' := fun hh => h.1 hh.symm
    simp [collapseNewlinesAux, hc, ih h.2]

theorem consume_downloads_length (pc : String → Nat)
    (outs : List ((String × Nat) × Option String)) :
    (consume_downloads pc outs).1.length + (consume_downloads pc outs).2.length
      = outs.length := by
  induction outs with
  | nil => rfl
  | cons o rest ih =>
    rcases o with ⟨⟨l, n⟩, e?⟩
    cases e? <;> simp [consume_downloads] <;> omega

theorem consume_downloads_updates (pc : String → Nat)
    (outs : List ((String × Nat) × Option String)) :
    (consume_downloads pc outs).2 =
      outs.filterMap (fun o =>
        match o.2 with
        | none => some ⟨o.1.1, o.1.2, pc o.1.1⟩
        | some _ => none) := by
  induction outs with
  | nil => rfl
  | cons o rest ih =>
    rcases o with ⟨⟨l, n⟩, e?⟩
    cases e? <;> simp [consume_downloads, ih]

theorem consume_downloads_failures (pc : String → Nat)
    (outs : List ((String × Nat) × Option String)) :
    (consume_downloads pc outs).1 = outs.filterMap (fun o => o.2) := by
  induction outs with
  | nil => rfl
  | cons o rest ih =>
    rcases o with ⟨⟨l, n⟩, e?⟩
    cases e? <;> simp [consume_downloads, ih]

theorem scrape_words_loop_ok_then_error (table : List WordEntry) (e : String)
    (pre : List (List WordEntry)) (rest : List (Except String (List WordEntry))) :
    scrape_words_loop table (pre.map Except.ok ++ Except.error e :: rest)
      = (pre.foldl write_words table, some e) := by
  induction pre generalizing table with
  | nil => rfl
  | cons ws pres ih => simpa [scrape_words_loop] using ih (write_words table ws)

theorem run_save_pages_fetches (net : String → Nat → String) (tasks : List (String × Nat)) :
    ∀ st : FetchState, tasks.Nodup →
      (∀ t ∈ tasks, t ∉ st.memo_save_page) → (∀ t ∈ tasks, t ∉ st.memo_get_page) →
      (run_save_pages net tasks st).fetches = st.fetches + tasks.length := by
  induction tasks with
  | nil => intro st _ _ _; rfl
  | cons t ts ih =>
    intro st hnd hs hg
    have hts : t ∉ st.memo_save_page := hs t (List.mem_cons_self t ts)
    have htg : t ∉ st.memo_get_page := hg t (List.mem_cons_self t ts)
    have hstep : run_save_pages net (t :: ts) st
        = run_save_pages net ts (save_page net t.1 t.2 st) := rfl
    have hmem : ¬ ((t.1, t.2) ∈ st.memo_save_page) := hts
    have hmemg : ¬ ((t.1, t.2) ∈ st.memo_get_page) := htg
    have hsave : save_page net t.1 t.2 st
        = ⟨fsWrite st.disk (save_page_target t.1 t.2) (net t.1 t.2),
            (t.1, t.2) :: st.memo_get_page, (t.1, t.2) :: st.memo_save_page,
            st.fetches + 1⟩ := by
      rw [save_page, if_neg hmem, get_page, if_neg hmemg]
    rw [hstep, hsave]
    rw [List.nodup_cons] at hnd
    have hrec := ih ⟨fsWrite st.disk (save_page_target t.1 t.2) (net t.1 t.2),
        (t.1, t.2) :: st.memo_get_page, (t.1, t.2) :: st.memo_save_page, st.fetches + 1⟩
      hnd.2
      (by
        intro u hu
        simp only [List.mem_cons]
        rintro (h1 | h2)
        · have hut : u = t := by simpa using h1
          exact hnd.1 (hut ▸ hu)
        · exact hs u (List.mem_cons_of_mem t hu) h2)
      (by
        intro u hu
        simp only [List.mem_cons]
        rintro (h1 | h2)
        · have hut : u = t := by simpa using h1
          exact hnd.1 (hut ▸ hu)
        · exact hg u (List.mem_cons_of_mem t hu) h2)
    rw [hrec]
    simp
    omega

/-! ## Claim theorems -/

/-- C1: the dedup guarantee fails for entries whose `pos` is NULL. SQLite
treats NULL values in a UNIQUE constraint as distinct from everything,
including other NULLs, so the same `("quiz", "A test.", NULL)` triple
written in two batches produces two rows — the table's cardinality is 2
while the number of distinct triples is 1 — whereas the same triple with
a non-NULL `pos` correctly produces one row. -/
theorem dedup_store_null_pos_bug :
    (write_batches []
        [[⟨("quiz"), ("A test."), none⟩], [⟨("quiz"), ("A test."), none⟩]]).length = 2 ∧
    (write_batches []
        [[⟨("quiz"), ("A test."), none⟩], [⟨("quiz"), ("A test."), none⟩]]).dedup.length = 1 ∧
    (write_batches []
        [[⟨("quiz"), ("A test."), some ("n")⟩],
          [⟨("quiz"), ("A test."), some ("n")⟩]]).length = 1 :=
  ⟨rfl, by decide, rfl⟩

/-- C2 counterexample: a `save_page` task run in a fresh process (empty
memo caches) performs a network fetch even though the on-disk cache
already holds the very file it is about to write — the task is not a
no-op on a cache hit, refuting the claim at this concrete input. -/
theorem cached_save_page_task_still_fetches :
    (save_page (fun _ _ => ("X")) ("a") 1
        ⟨fsWrite [] (save_page_target ("a") 1) ("X"), [], [], 0⟩).fetches = 1 ∧
      (1 : Nat) ≠ 0 :=
  ⟨rfl, by decide⟩

/-- C2 amended: only the first-page index task (`download_index`) checks
the on-disk cache and skips the network when its file exists; a
`save_page` task always fetches, being memoized only in-process, so a
second run of the Fetch Scheduler (fresh memo caches) performs exactly
one network fetch per scheduled `(letter, page)` task — not zero. -/
theorem fetch_scheduler_amended :
    (∀ (net : String → Nat → String) (letter : String) (st : FetchState),
        fsHas st.disk (make_filepath letter 1) = true → download_index net letter st = st) ∧
    (∀ (net : String → Nat → String) (tasks : List (String × Nat)) (st : FetchState),
        tasks.Nodup → st.memo_save_page = [] → st.memo_get_page = [] →
        (run_save_pages net tasks st).fetches = st.fetches + tasks.length) :=
  ⟨fun net letter st h => by rw [download_index, if_pos h],
   fun net tasks st hnd hs hg =>
     run_save_pages_fetches net tasks st hnd
       (by intro t _; rw [hs]; exact List.not_mem_nil t)
       (by intro t _; rw [hg]; exact List.not_mem_nil t)⟩

/-- C2 witness: with page 1 of partition "a" cached on disk, the index
task is a no-op; and a fresh run over the two distinct tasks (a, 1) and
(a, 2) performs exactly two fetches. -/
theorem fetch_scheduler_amended_witness :
    (fsHas (fsWrite [] (make_filepath ("a") 1) ("X")) (make_filepath ("a") 1) = true ∧
      download_index (fun _ _ => ("X")) ("a")
          ⟨fsWrite [] (make_filepath ("a") 1) ("X"), [], [], 0⟩
        = ⟨fsWrite [] (make_filepath ("a") 1) ("X"), [], [], 0⟩) ∧
    (run_save_pages (fun _ _ => ("X")) [(("a"), 1), (("a"), 2)] ⟨[], [], [], 0⟩).fetches
      = 0 + 2 :=
  ⟨⟨by decide, fetch_scheduler_amended.1 _ ("a") _ (by decide)⟩,
   fetch_scheduler_amended.2 _ [(("a"), 1), (("a"), 2)] ⟨[], [], [], 0⟩ (by decide) rfl rfl⟩

/-- C3 counterexample: in `scrape_words`, a failed parse task's
exception is re-raised by `result.result()` and aborts the consumption
loop: with the failure completing first, the succeeding sibling's words
are never written — the final table is empty although that task's batch
held an entry. -/
theorem parse_failure_aborts_batch :
    scrape_words_loop []
        [Except.error ("boom"), Except.ok [⟨("quiz"), ("A test."), none⟩]]
      = ([], some ("boom")) := rfl

/-- C3 amended: failure isolation holds for the fetch loops — the
`save_all_pages` consumption records every failure and still reports
every sibling's outcome, one report per scheduled task — but not for the
parse stage: `scrape_words` consumes results only up to the first failed
task, whose exception aborts the loop, so the batches completing after
it are never written to the store. -/
theorem batch_failure_policy_amended :
    (∀ (pc : String → Nat) (outs : List ((String × Nat) × Option String)),
        (consume_downloads pc outs).1.length + (consume_downloads pc outs).2.length
          = outs.length) ∧
    (∀ (table : List WordEntry) (e : String) (pre : List (List WordEntry))
        (rest : List (Except String (List WordEntry))),
        scrape_words_loop table (pre.map Except.ok ++ Except.error e :: rest)
          = (pre.foldl write_words table, some e)) :=
  ⟨consume_downloads_length, scrape_words_loop_ok_then_error⟩

/-- C4: `clean_html_content` collapses every whitespace run — newline
runs included — to a single space before the newline-collapsing
substitution runs, so that last step is dead code: on the spec's own
vector the function returns `"foo bar baz"`, not `"foo bar\nbaz"`, and
in general its output never contains a newline at all. -/
theorem clean_html_content_newline_bug :
    clean_html_content ("foo\\x12  bar\n\n\nbaz") = ("foo bar baz") ∧
    ∀ s : String, '\n' ∉ (clean_html_content s).toList := by
  refine ⟨by decide, ?_⟩
  intro s
  show '\n' ∉ collapseNewlinesAux false
    (collapseSpacesAux false (removeEscAux false (pyStripList s.toList)))
  rw [collapseNewlinesAux_id _ (collapseSpacesAux_no_newline _ _) false]
  exact collapseSpacesAux_no_newline _ _

/-- C5 counterexample: for the partition key "A" the existence check
path (`make_filepath`, raw key as directory) and the write path
(`save_page`, lower-cased key as directory) differ, refuting the claim
that they resolve every identity to the same on-disk path. -/
theorem cache_path_mismatch :
    make_filepath ("A") 1 ≠ save_page_target ("A") 1 := by decide

/-- C5 amended: for partition keys equal to their own lower-casing (as
every key the program schedules is), the existence check and the write
resolve an identity to the same path — directory named by the key, file
named by the zero-padded 3-digit page number, an underscore, the
lower-cased trimmed key and `.html` — and after a successful write the
existence check answers true and the read returns the written content
(the store is durable, so this persists across restarts). -/
theorem cache_path_amended :
    ∀ (letter : String) (n : Nat) (c : String) (fs : Fs),
      pyLower letter = letter →
      make_filepath letter n = save_page_target letter n ∧
      fsHas (fsWrite fs (save_page_target letter n) c) (make_filepath letter n) = true ∧
      fsRead (fsWrite fs (save_page_target letter n) c) (make_filepath letter n)
        = some c := by
  intro letter n c fs h
  have hpath : make_filepath letter n = save_page_target letter n := by
    rw [make_filepath, save_page_target, h]
  refine ⟨hpath, ?_, ?_⟩
  · rw [hpath, fsHas, fsWrite]
    simp
  · rw [hpath, fsRead, fsWrite]
    rw [List.find?_cons_of_pos _ (by simp)]
    rfl

/-- C5 witness: partition "a", page 7 — the shared path is
`a/007_a.html`, and a write of "hello" is then seen by the existence
check and returned by the read. -/
theorem cache_path_amended_witness :
    pyLower ("a") = ("a") ∧
    (make_filepath ("a") 7 = save_page_target ("a") 7 ∧
      fsHas (fsWrite [] (save_page_target ("a") 7) ("hello")) (make_filepath ("a") 7)
        = true ∧
      fsRead (fsWrite [] (save_page_target ("a") 7) ("hello")) (make_filepath ("a") 7)
        = some ("hello")) :=
  ⟨by decide, cache_path_amended ("a") 7 ("hello") [] (by decide)⟩

/-- C6 amended: on a first page with at least two pagination items,
resolution raises the page-count error exactly when the second-to-last
item's text is not numeric, and in that case returns no count at all (in
particular not a default of 1); but the failure is not confined to its
partition — the error propagates out of the page-count comprehension, so
the whole resolution step fails and no partition's count is produced. -/
theorem pages_count_parse_error_amended :
    (∀ items : List String, 2 ≤ items.length →
      ((get_letter_pages_count items
          = Except.error (PagesCountError.typeError ("Could not get page count"))) ↔
        pyIsNumeric (items.getD (items.length - 2) ("")) = false) ∧
      (pyIsNumeric (items.getD (items.length - 2) ("")) = false →
        ∀ n : Nat, get_letter_pages_count items ≠ Except.ok n)) ∧
    (∀ (key : String) (items : List String) (rest : List (String × List String))
        (e : PagesCountError),
      get_letter_pages_count items = Except.error e →
      count_all_pages ((key, items) :: rest) = Except.error e) := by
  constructor
  · intro items h2
    simp only [get_letter_pages_count]
    rw [if_pos h2]
    by_cases hn : pyIsNumeric (items.getD (items.length - 2) ("")) = true
    · rw [if_pos hn]
      have hcontra : ¬ pyIsNumeric (items.getD (items.length - 2) ("")) = false := by
        rw [hn]; simp
      exact ⟨⟨fun h => absurd h (by simp), fun hb => absurd hb hcontra⟩,
        fun hb => absurd hb hcontra⟩
    · rw [if_neg hn]
      have hnf : pyIsNumeric (items.getD (items.length - 2) ("")) = false := by
        simpa using hn
      exact ⟨⟨fun _ => hnf, fun _ => rfl⟩, fun _ n h => absurd h (by simp)⟩
  · intro key items rest e h
    simp [count_all_pages, h]

/-- C6 counterexample: with partition "a" carrying the non-numeric
marker "abc" and partition "b" a well-formed "3", the joint resolution
step fails outright — partition "b" gets no count in that run even
though it resolves fine on its own, so the failure is not confined to
the failing partition. -/
theorem pages_count_failure_not_confined :
    count_all_pages
        [(("a"), [("1"), ("abc"), ("next")]), (("b"), [("1"), ("3"), ("next")])]
      = Except.error (PagesCountError.typeError ("Could not get page count")) ∧
    count_all_pages [(("b"), [("1"), ("3"), ("next")])] = Except.ok [(("b"), 3)] :=
  ⟨rfl, rfl⟩

/-- C6 witness: a control whose second-to-last item is "abc" raises the
page-count error and yields no count. -/
theorem pages_count_parse_error_amended_witness :
    (get_letter_pages_count [("1"), ("abc"), ("next")]
        = Except.error (PagesCountError.typeError ("Could not get page count"))) ∧
    (∀ n : Nat, get_letter_pages_count [("1"), ("abc"), ("next")] ≠ Except.ok n) :=
  ⟨((pages_count_parse_error_amended.1 _ (by decide)).1).mpr (by decide),
   (pages_count_parse_error_amended.1 _ (by decide)).2 (by decide)⟩

/-- C7: a name of the form `nm(rest)` (single parenthesis) splits into
the bare name `nm` and `format_pos` of the suffix, which strips
non-alphanumerics from each comma-separated element and rejoins with a
comma-space; in particular `"run (v., n.)"` yields the pre-cleaning name
`"run "` and part-of-speech `"v, n"`. -/
theorem name_pos_split_spec :
    (∀ (nm rest : List Char), '(' ∉ nm → '(' ∉ rest →
      split_name_pos (String.mk (nm ++ '(' :: rest))
        = (String.mk nm, format_pos (some (String.mk rest)))) ∧
    split_name_pos ("run (v., n.)") = (("run "), some ("v, n")) := by
  constructor
  · intro nm rest hnm hrest
    have hmem : '(' ∈ (String.mk (nm ++ '(' :: rest)).toList := by
      show '(' ∈ nm ++ '(' :: rest
      exact List.mem_append_right nm (List.mem_cons_self _ _)
    simp only [split_name_pos]
    rw [if_pos hmem]
    show (String.mk ((pySplitChar '(' (nm ++ '(' :: rest)).getD 0 []),
        format_pos (some (String.mk ((pySplitChar '(' (nm ++ '(' :: rest)).getD 1 []))))
      = (String.mk nm, format_pos (some (String.mk rest)))
    rw [pySplitChar_append _ _ _ hnm, pySplitChar_not_mem _ _ hrest]
    rfl
  · decide

/-- C7 witness: the general split theorem applied to the spec's vector
`"run " ++ "(" ++ "v., n.)"`. -/
theorem name_pos_split_spec_witness :
    ('(' ∉ ("run ").toList) ∧
    split_name_pos (String.mk (("run ").toList ++ '(' :: ("v., n.)").toList))
      = (String.mk (("run ").toList), format_pos (some (String.mk (("v., n.)").toList)))) :=
  ⟨by decide,
   name_pos_split_spec.1 (("run ").toList) (("v., n.)").toList) (by decide) (by decide)⟩

/-- C8 counterexample: with page counts a ↦ 1, b ↦ 2 (corpus total 3)
and completion order (b,2), (a,1), (b,1), the first yielded update is
`(b, 2, 2)`: the ratio derivable from it is 2/2, not 1/3, and no field
carries the running completed count 1 — the yields do not carry a
corpus-level running count. -/
theorem download_update_not_running_count :
    (consume_downloads (fun l => if l = ("a") then 1 else 2)
        [((("b"), 2), none), ((("a"), 1), none), ((("b"), 1), none)]).2
      = [⟨("b"), 2, 2⟩, ⟨("a"), 1, 1⟩, ⟨("b"), 1, 2⟩] ∧
    (2 : Nat) * 3 ≠ 1 * 2 ∧ (2 : Nat) ≠ 1 :=
  ⟨rfl, by decide, by decide⟩

/-- C8 amended: the consumption loop yields exactly one update per
successful task, in completion order, carrying that task's letter, its
page number within the letter and the letter's page count (and collects
exactly the failed tasks' errors); overall progress is obtained by
counting yields against the precomputed corpus total, as `full_download`
does with `advance=1`, not from the yielded fields themselves. -/
theorem progress_updates_amended :
    ∀ (pc : String → Nat) (outs : List ((String × Nat) × Option String)),
      (consume_downloads pc outs).2 =
        outs.filterMap (fun o =>
          match o.2 with
          | none => some ⟨o.1.1, o.1.2, pc o.1.1⟩
          | some _ => none) ∧
      (consume_downloads pc outs).1 = outs.filterMap (fun o => o.2) :=
  fun pc outs => ⟨consume_downloads_updates pc outs, consume_downloads_failures pc outs⟩

/-- C9 counterexample: a pagination control whose second-to-last item
reads "0" resolves successfully to the count 0 — resolution can succeed
with a count below 1. -/
theorem resolve_zero_count :
    get_letter_pages_count [("prev"), ("0"), ("next")] = Except.ok 0 ∧ ¬ (1 ≤ 0) :=
  ⟨rfl, by decide⟩

/-- C9 amended: a successful resolution returns exactly the decimal
value of the second-to-last pagination item (a numeric token on a list
of at least two items); that value is a natural number but is not
guaranteed to be at least 1. -/
theorem resolve_count_amended :
    ∀ (items : List String) (n : Nat),
      get_letter_pages_count items = Except.ok n →
      2 ≤ items.length ∧
      pyIsNumeric (items.getD (items.length - 2) ("")) = true ∧
      n = strToNat (items.getD (items.length - 2) ("")) := by
  intro items n h
  by_cases h2 : 2 ≤ items.length
  · refine ⟨h2, ?_⟩
    simp only [get_letter_pages_count] at h
    rw [if_pos h2] at h
    by_cases hn : pyIsNumeric (items.getD (items.length - 2) ("")) = true
    · rw [if_pos hn] at h
      exact ⟨hn, (Except.ok.inj h).symm⟩
    · rw [if_neg hn] at h
      exact absurd h (by simp)
  · simp only [get_letter_pages_count] at h
    rw [if_neg h2] at h
    exact absurd h (by simp)

/-- C9 witness: the amended theorem applied to a control resolving to
12. -/
theorem resolve_count_amended_witness :
    2 ≤ 3 ∧ pyIsNumeric ("12") = true ∧ 12 = strToNat ("12") :=
  resolve_count_amended [("x"), ("12"), ("y")] 12 rfl

/-- C10: with at least two pagination items the `selected[-2]` access is
in bounds and the parser returns the item's numeric value or raises the
declared page-count error; with fewer than two items it raises an
IndexError, which is distinct from the declared page-count error. -/
theorem pages_count_access_safety :
    ∀ items : List String,
      (2 ≤ items.length →
        get_letter_pages_count items ≠ Except.error PagesCountError.indexError ∧
        ((get_letter_pages_count items
              = Except.ok (strToNat (items.getD (items.length - 2) (""))) ∧
            pyIsNumeric (items.getD (items.length - 2) ("")) = true) ∨
          (get_letter_pages_count items
              = Except.error (PagesCountError.typeError ("Could not get page count")) ∧
            pyIsNumeric (items.getD (items.length - 2) ("")) = false))) ∧
      (items.length < 2 →
        get_letter_pages_count items = Except.error PagesCountError.indexError) ∧
      PagesCountError.indexError ≠ PagesCountError.typeError ("Could not get page count") := by
  intro items
  refine ⟨?_, ?_, by decide⟩
  · intro h2
    simp only [get_letter_pages_count]
    rw [if_pos h2]
    by_cases hn : pyIsNumeric (items.getD (items.length - 2) ("")) = true
    · rw [if_pos hn]
      exact ⟨by simp, Or.inl ⟨rfl, hn⟩⟩
    · rw [if_neg hn]
      exact ⟨by simp, Or.inr ⟨rfl, by simpa using hn⟩⟩
  · intro h
    simp only [get_letter_pages_count]
    rw [if_neg (by omega)]

/-- C10 witness: the in-bounds case at a three-item control with a
numeric "5", and the out-of-bounds case at the empty control. -/
theorem pages_count_access_safety_witness :
    (get_letter_pages_count [("a"), ("5"), ("b")]
        ≠ Except.error PagesCountError.indexError ∧
      ((get_letter_pages_count [("a"), ("5"), ("b")] = Except.ok 5 ∧
          pyIsNumeric ("5") = true) ∨
        (get_letter_pages_count [("a"), ("5"), ("b")]
            = Except.error (PagesCountError.typeError ("Could not get page count")) ∧
          pyIsNumeric ("5") = false))) ∧
    get_letter_pages_count ([] : List String) = Except.error PagesCountError.indexError :=
  ⟨(pages_count_access_safety [("a"), ("5"), ("b")]).1 (by decide),
   (pages_count_access_safety ([] : List String)).2.1 (by decide)⟩

end Etym
